import Mathlib

/-!
Shallow embedding of the K-pop trivia game client (src/index.tsx).

The program is a browser client: a question provider (fetchGameQuestion)
that sends a prompt to an AI service and parses the textual response with
JSON.parse, a session controller (the GameSession component state plus
loadQuestion and handleAnswer) and an app shell (the App component state
plus handleScoreUpdate and the back-to-menu action).  The upstream AI
response is the only external input; it is modelled explicitly as a value
of type AIResponse.  JavaScript truthiness tests that appear in the source
are modelled by explicit truthiness functions.
-/

/-- Game modes, from the GAME_MODES constant. -/
inductive GameMode where
  | song
  | idol
  | card
  | menu
deriving DecidableEq

/-- The Question interface: questionText, optional details, options,
correctAnswer, explanation. -/
structure Question where
  questionText : String
  details : Option String
  options : List String
  correctAnswer : String
  explanation : String
deriving DecidableEq

/-- JSON values, as produced by JSON.parse.  Object field lists model the
parsed JavaScript object; JSON.parse collapses duplicate keys, so field
names are distinct and lookup order is immaterial. -/
inductive Json where
  | null
  | bool (b : Bool)
  | num (n : Int)
  | str (s : String)
  | arr (elems : List Json)
  | obj (fields : List (String × Json))

/-- Property access on a parsed value: a lookup on an object, undefined
(none) on anything else, matching optional chaining in the source. -/
def Json.getField : Json → String → Option Json
  | Json.obj fields, key => (fields.find? (fun p => p.1 == key)).map Prod.snd
  | _, _ => none

/-- JavaScript truthiness of a parsed JSON value (null, false, 0 and the
empty string are falsy; arrays and objects are always truthy). -/
def Json.truthy : Json → Bool
  | Json.null => false
  | Json.bool b => b
  | Json.num n => !(n == 0)
  | Json.str s => !(s == "")
  | Json.arr _ => true
  | Json.obj _ => true

/-- A value viewed as a string, for reading schema fields. -/
def Json.asString : Json → Option String
  | Json.str s => some s
  | _ => none

/-- A list of values viewed as a list of strings. -/
def decodeStrings : List Json → Option (List String)
  | [] => some []
  | j :: rest =>
    match Json.asString j, decodeStrings rest with
    | some s, some ss => some (s :: ss)
    | _, _ => none

/-- A value viewed as an array of strings. -/
def Json.asStringArray : Json → Option (List String)
  | Json.arr elems => decodeStrings elems
  | _ => none

/-- Reading of the optional `details` field: absent is fine, a present
non-string violates the declared schema. -/
def decodeDetails (j : Json) : Option (Option String) :=
  match j.getField "details" with
  | none => some none
  | some d =>
    match Json.asString d with
    | some s => some (some s)
    | none => none

/-- Reading a parsed JSON value as the declared question schema from
getQuestionSchema: an object with required string fields questionText,
correctAnswer and explanation, a required options field holding an array
of strings, and an optional string details field.  The declared schema
does not constrain the length of options nor require membership of
correctAnswer in options. -/
def decodeQuestion (j : Json) : Option Question :=
  match (j.getField "questionText").bind Json.asString,
        (j.getField "options").bind Json.asStringArray,
        (j.getField "correctAnswer").bind Json.asString,
        (j.getField "explanation").bind Json.asString,
        decodeDetails j with
  | some qt, some os, some ca, some ex, some dt =>
      some { questionText := qt, details := dt, options := os,
             correctAnswer := ca, explanation := ex }
  | _, _, _, _, _ => none

/-- Conformance of a parsed value to the declared question schema. -/
def conformsToQuestionSchema (j : Json) : Bool :=
  (decodeQuestion j).isSome

/-- The upstream AI response as seen by fetchGameQuestion: response.text is
absent or empty, or it is text that JSON.parse rejects, or it is text that
JSON.parse turns into the given JSON value.  The mode-specific prompt and
systemInstruction strings chosen before the request only shape the remote
generation, never the local handling of the response, so they are left
abstract here. -/
inductive AIResponse where
  | noText
  | malformedText
  | jsonText (j : Json)

/-- The fetchGameQuestion function: throws when response.text is absent
(the string of the Error object is kept), lets the JSON.parse exception
propagate on malformed text, and otherwise returns the parsed value,
cast to Question without any runtime validation. -/
def fetchGameQuestion (mode : GameMode) (resp : AIResponse) : Except String Json :=
  match resp with
  | AIResponse.noText => Except.error "No response from AI"
  | AIResponse.malformedText => Except.error "SyntaxError: JSON.parse rejected the text"
  | AIResponse.jsonText j => Except.ok j

/-- The GameSession component state: question (null when absent), loading,
selectedOption, isCorrect and streak.  The score lives in the App
component and is threaded separately. -/
structure SessionState where
  question : Json
  loading : Bool
  selectedOption : Option String
  isCorrect : Option Bool
  streak : Int

/-- The initial GameSession state on mount: question null, loading true,
no selection, no correctness, streak 0. -/
def initSession : SessionState :=
  { question := Json.null, loading := true, selectedOption := none,
    isCorrect := none, streak := 0 }

/-- The handleScoreUpdate function of the App component: adds the points
to the score. -/
def handleScoreUpdate (score : Int) (points : Int) : Int :=
  score + points

/-- The loadQuestion function: sets loading, clears question, selection
and correctness, invokes fetchGameQuestion, stores the result on success,
swallows the exception on failure, and finally clears loading. -/
def loadQuestion (mode : GameMode) (st : SessionState) (resp : AIResponse) : SessionState :=
  let st1 : SessionState :=
    { st with loading := true, question := Json.null,
              selectedOption := none, isCorrect := none }
  match fetchGameQuestion mode resp with
  | Except.ok q => { st1 with question := q, loading := false }
  | Except.error _ => { st1 with loading := false }

/-- JavaScript truthiness of the selectedOption state value, as tested by
the double-click guard in handleAnswer: null and the empty string are
falsy. -/
def strTruthy : Option String → Bool
  | none => false
  | some s => !(s == "")

/-- Strict equality of a string against an optionally present parsed
value, as in the comparison of the clicked option with
question?.correctAnswer: true exactly when the value is that string. -/
def jsStrictEqStr (s : String) : Option Json → Bool
  | some (Json.str t) => s == t
  | _ => false

/-- The handleAnswer function: returns early when selectedOption is
truthy, otherwise records the selection, computes correctness by strict
string equality with question?.correctAnswer, increments the streak and
adds 10 plus twice the pre-increment streak to the score on a correct
answer, and resets the streak to 0 on an incorrect one. -/
def handleAnswer (st : SessionState) (score : Int) (option : String) :
    SessionState × Int :=
  if strTruthy st.selectedOption then (st, score)
  else
    let correct := jsStrictEqStr option (st.question.getField "correctAnswer")
    let st1 : SessionState :=
      { st with selectedOption := some option, isCorrect := some correct,
                streak := if correct then st.streak + 1 else 0 }
    let score1 := if correct then handleScoreUpdate score (10 + st.streak * 2) else score
    (st1, score1)

/-- The App component state.  The session field is the state of the
mounted GameSession component, absent while the menu is shown. -/
structure AppState where
  currentMode : GameMode
  score : Int
  session : Option SessionState

/-- The initial App state: menu shown, score 0, no session mounted. -/
def initApp : AppState :=
  { currentMode := GameMode.menu, score := 0, session := none }

/-- The back action wired to the header button: switches the current mode
to menu, which unmounts the GameSession component and with it the current
question and mode context; the score state of App is untouched. -/
def goToMenu (app : AppState) : AppState :=
  { currentMode := GameMode.menu, score := app.score, session := none }

/-- One user-visible session event: a question load completing with a
given upstream response, or an answer click. -/
inductive SessionAct where
  | load (resp : AIResponse)
  | answer (opt : String)

/-- One step of the session controller, acting on the session state and
the App score. -/
def sessionStep (mode : GameMode) (s : SessionState × Int) (a : SessionAct) :
    SessionState × Int :=
  match a with
  | SessionAct.load resp => (loadQuestion mode s.1 resp, s.2)
  | SessionAct.answer opt => handleAnswer s.1 s.2 opt

/-- A run of the session controller over a list of events. -/
def sessionRun (mode : GameMode) (s : SessionState × Int) :
    List SessionAct → SessionState × Int
  | [] => s
  | a :: rest => sessionRun mode (sessionStep mode s a) rest

/-- The Presenting display state: not loading, a truthy question stored,
no selection and no correctness yet (the component renders the option
buttons exactly in this configuration). -/
def Presenting (st : SessionState) : Prop :=
  st.loading = false ∧ st.question.truthy = true ∧
  st.selectedOption = none ∧ st.isCorrect = none

/-- The failure display state: not loading and the stored question is
falsy, so the component renders the retry view. -/
def FailureDisplay (st : SessionState) : Prop :=
  st.loading = false ∧ st.question.truthy = false

/-- The invariant of claim C5: selection and correctness are both absent
or both present. -/
def answerConsistent (st : SessionState) : Prop :=
  (st.selectedOption = none ∧ st.isCorrect = none) ∨
  (st.selectedOption.isSome = true ∧ st.isCorrect.isSome = true)

/-- The rendered option rows from a given array index onward: each row
carries the letter String.fromCharCode(65 + idx) and the option text, in
array order. -/
def renderOptionsFrom (idx : Nat) : List String → List (Char × String)
  | [] => []
  | o :: rest => (Char.ofNat (65 + idx), o) :: renderOptionsFrom (idx + 1) rest

/-- The option rows rendered by the Presenting view, from
question.options.map with positional letter labels. -/
def renderOptions (options : List String) : List (Char × String) :=
  renderOptionsFrom 0 options

/-- A schema-conforming upstream payload with only three options, used to
examine claim C1. -/
def cexJson3 : Json :=
  Json.obj [("questionText", Json.str "q"),
            ("options", Json.arr [Json.str "a", Json.str "b", Json.str "c"]),
            ("correctAnswer", Json.str "a"),
            ("explanation", Json.str "e")]

/-- The question read from cexJson3. -/
def cexQuestion3 : Question :=
  { questionText := "q", details := none, options := ["a", "b", "c"],
    correctAnswer := "a", explanation := "e" }

/-- A presenting state with a well-formed four-option question. -/
def w2State : SessionState :=
  { question := Json.obj [("questionText", Json.str "which group sang it"),
      ("options", Json.arr [Json.str "a", Json.str "b", Json.str "c", Json.str "d"]),
      ("correctAnswer", Json.str "a"),
      ("explanation", Json.str "because")],
    loading := false, selectedOption := none, isCorrect := none, streak := 0 }

/-- The question read from the payload of w2State. -/
def w2Question : Question :=
  { questionText := "which group sang it", details := none,
    options := ["a", "b", "c", "d"], correctAnswer := "a", explanation := "because" }

/-- An answered state whose recorded selection is the empty string, used to
examine claim C3. -/
def c3State : SessionState :=
  { question := Json.obj [("correctAnswer", Json.str "a")],
    loading := false, selectedOption := some "", isCorrect := some false,
    streak := 0 }

/-- An answered state with an ordinary non-empty recorded selection. -/
def w3State : SessionState :=
  { question := Json.null, loading := false, selectedOption := some "A",
    isCorrect := some false, streak := 2 }

/-- A presenting state whose question names a correct answer that is not
among its options, used for claim C8. -/
def w8State : SessionState :=
  { question := Json.obj [("questionText", Json.str "q"),
      ("options", Json.arr [Json.str "a", Json.str "b", Json.str "c", Json.str "d"]),
      ("correctAnswer", Json.str "z"),
      ("explanation", Json.str "e")],
    loading := false, selectedOption := none, isCorrect := none, streak := 3 }

/-- The question read from the payload of w8State. -/
def w8Question : Question :=
  { questionText := "q", details := none, options := ["a", "b", "c", "d"],
    correctAnswer := "z", explanation := "e" }

/-- Loading a question always ends not loading, with selection and
correctness cleared and the streak untouched, whatever the response. -/
lemma loadQuestion_spec (mode : GameMode) (st : SessionState) (resp : AIResponse) :
    (loadQuestion mode st resp).loading = false ∧
    (loadQuestion mode st resp).selectedOption = none ∧
    (loadQuestion mode st resp).isCorrect = none ∧
    (loadQuestion mode st resp).streak = st.streak := by
  cases resp <;> exact ⟨rfl, rfl, rfl, rfl⟩

/-- C1 (amended): for every mode, state and upstream response, loadQuestion
ends not loading with selection and correctness cleared, and the resulting
state is the presenting state or the failure-display state, never any
other intermediate state; no bound on the length of the stored options and
no membership of correctAnswer in options is guaranteed. -/
theorem C1_loadQuestion_states (mode : GameMode) (st : SessionState) (resp : AIResponse) :
    (loadQuestion mode st resp).loading = false ∧
    (loadQuestion mode st resp).selectedOption = none ∧
    (loadQuestion mode st resp).isCorrect = none ∧
    (Presenting (loadQuestion mode st resp) ∨ FailureDisplay (loadQuestion mode st resp)) := by
  obtain ⟨h1, h2, h3, -⟩ := loadQuestion_spec mode st resp
  refine ⟨h1, h2, h3, ?_⟩
  cases hq : (loadQuestion mode st resp).question.truthy with
  | true => exact Or.inl ⟨h1, hq, h2, h3⟩
  | false => exact Or.inr ⟨h1, hq⟩

/-- C1 counterexample: a payload that conforms to the declared schema but
carries only three options is accepted and presented, refuting the claim
that the presenting state always holds a question with exactly four
options. -/
theorem C1_counterexample :
    conformsToQuestionSchema cexJson3 = true ∧
    Presenting (loadQuestion GameMode.song initSession (AIResponse.jsonText cexJson3)) ∧
    decodeQuestion (loadQuestion GameMode.song initSession
      (AIResponse.jsonText cexJson3)).question = some cexQuestion3 ∧
    cexQuestion3.options.length = 3 :=
  ⟨rfl, ⟨rfl, rfl, rfl, rfl⟩, rfl, rfl⟩

/-- C2: in a presenting state whose stored question carries the correct
answer string, answering with exactly that string records it, marks the
answer correct, increments the streak and adds 10 plus twice the
pre-increment streak to the score, while answering with any other string
records it, marks the answer incorrect, resets the streak to 0 and leaves
the score unchanged. -/
theorem C2_handleAnswer_scoring (st : SessionState) (score : Int) (ans opt : String)
    (hp : Presenting st)
    (hca : st.question.getField "correctAnswer" = some (Json.str ans)) :
    handleAnswer st score ans =
      ({ st with selectedOption := some ans, isCorrect := some true,
                 streak := st.streak + 1 }, score + (10 + st.streak * 2)) ∧
    (opt ≠ ans →
      handleAnswer st score opt =
        ({ st with selectedOption := some opt, isCorrect := some false,
                   streak := 0 }, score)) := by
  obtain ⟨-, -, hsel, -⟩ := hp
  constructor
  · simp [handleAnswer, strTruthy, hsel, jsStrictEqStr, hca, handleScoreUpdate]
  · intro hne
    simp [handleAnswer, strTruthy, hsel, jsStrictEqStr, hca, hne]

/-- C2 witness: in a concrete presenting state with streak 0, the correct
option earns 10 points and streak 1, and a wrong option earns nothing. -/
theorem C2_witness :
    handleAnswer w2State 0 "a" =
      ({ w2State with selectedOption := some "a", isCorrect := some true,
                      streak := w2State.streak + 1 }, 0 + (10 + w2State.streak * 2)) ∧
    handleAnswer w2State 0 "b" =
      ({ w2State with selectedOption := some "b", isCorrect := some false,
                      streak := 0 }, 0) :=
  ⟨(C2_handleAnswer_scoring w2State 0 "a" "b" ⟨rfl, rfl, rfl, rfl⟩ rfl).1,
   (C2_handleAnswer_scoring w2State 0 "a" "b" ⟨rfl, rfl, rfl, rfl⟩ rfl).2 (by decide)⟩

/-- C3 counterexample: in an answered state whose recorded selection is the
empty string, a further call is not a no-op, because the guard tests
JavaScript truthiness rather than presence: the selection is re-recorded,
the streak moves and the score grows. -/
theorem C3_counterexample :
    c3State.selectedOption.isSome = true ∧
    c3State.isCorrect.isSome = true ∧
    (handleAnswer c3State 0 "a").1.selectedOption = some "a" ∧
    c3State.selectedOption ≠ some "a" ∧
    (handleAnswer c3State 0 "a").1.streak = c3State.streak + 1 ∧
    (handleAnswer c3State 0 "a").2 = 10 :=
  ⟨rfl, rfl, rfl, by decide, rfl, rfl⟩

/-- C3 (amended): whenever the recorded selection is truthy, that is a
non-empty string, a further call to handleAnswer changes nothing: neither
the selection, nor the correctness, nor the streak, nor the score. -/
theorem C3_idempotent_when_truthy (st : SessionState) (score : Int) (opt : String)
    (h : strTruthy st.selectedOption = true) :
    handleAnswer st score opt = (st, score) := by
  simp [handleAnswer, h]

/-- C3 witness: a second submission on a state that recorded the non-empty
selection A is a no-op. -/
theorem C3_witness : handleAnswer w3State 5 "x" = (w3State, 5) :=
  C3_idempotent_when_truthy w3State 5 "x" rfl

/-- C4 (amended): fetchGameQuestion fails exactly when the response has no
text or the text is not well-formed JSON; every well-formed JSON payload,
whether or not it conforms to the declared question schema, is returned
as is without validation. -/
theorem C4_fetch_failure_iff (mode : GameMode) (resp : AIResponse) :
    ((∃ e, fetchGameQuestion mode resp = Except.error e) ↔
      (resp = AIResponse.noText ∨ resp = AIResponse.malformedText)) ∧
    (∀ j, fetchGameQuestion mode (AIResponse.jsonText j) = Except.ok j) := by
  refine ⟨⟨?_, ?_⟩, fun j => rfl⟩
  · rintro ⟨e, he⟩
    cases resp with
    | noText => exact Or.inl rfl
    | malformedText => exact Or.inr rfl
    | jsonText j => exact absurd he (by simp [fetchGameQuestion])
  · rintro (h | h) <;> subst h
    · exact ⟨"No response from AI", rfl⟩
    · exact ⟨"SyntaxError: JSON.parse rejected the text", rfl⟩

/-- C4 counterexample: the empty JSON object is well-formed JSON that does
not conform to the declared question schema, yet fetchGameQuestion
returns it without raising, refuting the only-if direction of the claim. -/
theorem C4_counterexample :
    fetchGameQuestion GameMode.song (AIResponse.jsonText (Json.obj [])) =
      Except.ok (Json.obj []) ∧
    conformsToQuestionSchema (Json.obj []) = false :=
  ⟨rfl, rfl⟩

/-- C6: when the fetch fails, the finished load leaves the streak exactly
as it was and the score exactly as it was. -/
theorem C6_failed_load_preserves_score_streak (mode : GameMode) (st : SessionState)
    (score : Int) (resp : AIResponse)
    (h : ∃ e, fetchGameQuestion mode resp = Except.error e) :
    (loadQuestion mode st resp).streak = st.streak ∧
    (sessionStep mode (st, score) (SessionAct.load resp)).2 = score :=
  ⟨(loadQuestion_spec mode st resp).2.2.2, rfl⟩

/-- C6 witness: a load whose fetch throws for want of response text leaves
streak and score untouched. -/
theorem C6_witness :
    (loadQuestion GameMode.song initSession AIResponse.noText).streak =
      initSession.streak ∧
    (sessionStep GameMode.song (initSession, 7)
      (SessionAct.load AIResponse.noText)).2 = 7 :=
  C6_failed_load_preserves_score_streak GameMode.song initSession 7 AIResponse.noText
    ⟨"No response from AI", rfl⟩

/-- C7: loading the next question changes neither streak nor score, and
the back-to-menu action discards the mounted session and the mode context
while keeping the score. -/
theorem C7_score_streak_persist (mode : GameMode) (st : SessionState) (score : Int)
    (resp : AIResponse) (app : AppState) :
    (loadQuestion mode st resp).streak = st.streak ∧
    (sessionStep mode (st, score) (SessionAct.load resp)).2 = score ∧
    (goToMenu app).score = app.score ∧
    (goToMenu app).session = none ∧
    (goToMenu app).currentMode = GameMode.menu :=
  ⟨(loadQuestion_spec mode st resp).2.2.2, rfl, rfl, rfl, rfl⟩

/-- One controller step keeps selection and correctness coupled: a load
clears both, an answer call either changes nothing or sets both. -/
lemma answerConsistent_step (mode : GameMode) (s : SessionState × Int) (a : SessionAct)
    (h : answerConsistent s.1) : answerConsistent (sessionStep mode s a).1 := by
  cases a with
  | load resp =>
    obtain ⟨-, h2, h3, -⟩ := loadQuestion_spec mode s.1 resp
    exact Or.inl ⟨h2, h3⟩
  | answer opt =>
    show answerConsistent (handleAnswer s.1 s.2 opt).1
    cases hg : strTruthy s.1.selectedOption with
    | true => simpa [handleAnswer, hg] using h
    | false =>
      refine Or.inr ?_
      simp [handleAnswer, hg]

/-- The coupling of selection and correctness is preserved along any run
of session events. -/
lemma answerConsistent_run (mode : GameMode) (acts : List SessionAct) :
    ∀ (s : SessionState × Int), answerConsistent s.1 →
      answerConsistent (sessionRun mode s acts).1 := by
  induction acts with
  | nil => intro s h; exact h
  | cons a rest ih =>
    intro s h
    exact ih (sessionStep mode s a) (answerConsistent_step mode s a h)

/-- C5: in every session state reachable from the mounted component by any
sequence of loads and answers, selectedOption and isCorrect are both
absent or both present, and every completed loadQuestion leaves both
absent. -/
theorem C5_selection_correctness_coupled (mode : GameMode) (acts : List SessionAct)
    (m2 : GameMode) (st : SessionState) (resp : AIResponse) :
    answerConsistent (sessionRun mode (initSession, 0) acts).1 ∧
    (loadQuestion m2 st resp).selectedOption = none ∧
    (loadQuestion m2 st resp).isCorrect = none := by
  obtain ⟨-, h2, h3, -⟩ := loadQuestion_spec m2 st resp
  exact ⟨answerConsistent_run mode acts (initSession, 0) (Or.inl ⟨rfl, rfl⟩), h2, h3⟩

/-- A payload that reads as a question carries the string of its
correctAnswer field in that field. -/
lemma decodeQuestion_correctAnswer {j : Json} {q : Question}
    (h : decodeQuestion j = some q) :
    j.getField "correctAnswer" = some (Json.str q.correctAnswer) := by
  unfold decodeQuestion at h
  split at h
  case _ qt os ca ex dt hqt hos hca hex hdt =>
    rcases Option.bind_eq_some.mp hca with ⟨a, ha, ha2⟩
    cases a <;> simp [Json.asString] at ha2
    cases h
    simpa [ha2] using ha
  case _ => exact absurd h (by simp)

/-- C8: when the stored question reads as a Question whose correctAnswer
is not among its options, answering with any member of the options list is
judged incorrect, so the streak resets to 0 and the score is unchanged. -/
theorem C8_unwinnable_question (st : SessionState) (score : Int) (q : Question)
    (opt : String)
    (hsel : st.selectedOption = none)
    (hq : decodeQuestion st.question = some q)
    (hnot : q.correctAnswer ∉ q.options)
    (hin : opt ∈ q.options) :
    (handleAnswer st score opt).1.isCorrect = some false ∧
    (handleAnswer st score opt).1.streak = 0 ∧
    (handleAnswer st score opt).2 = score := by
  have hca := decodeQuestion_correctAnswer hq
  have hne : opt ≠ q.correctAnswer := fun he => hnot (he ▸ hin)
  simp [handleAnswer, strTruthy, hsel, jsStrictEqStr, hca, hne]

/-- C8 witness: with a concrete question whose declared correct answer z
is not among its four options, picking the first option is judged
incorrect, the streak of 3 collapses to 0 and the score of 40 stays. -/
theorem C8_witness :
    (handleAnswer w8State 40 "a").1.isCorrect = some false ∧
    (handleAnswer w8State 40 "a").1.streak = 0 ∧
    (handleAnswer w8State 40 "a").2 = 40 :=
  C8_unwinnable_question w8State 40 w8Question "a" rfl rfl (by decide) (by decide)

/-- The rendered rows from any start index project back to the option
texts in their original order. -/
lemma renderOptionsFrom_map_snd (idx : Nat) (os : List String) :
    (renderOptionsFrom idx os).map Prod.snd = os := by
  induction os generalizing idx with
  | nil => rfl
  | cons o rest ih => simp [renderOptionsFrom, ih]

/-- The row at position i of the rendering started at idx pairs the letter
of code 65 + idx + i with the option at position i. -/
lemma renderOptionsFrom_get? (os : List String) :
    ∀ (idx i : Nat), (renderOptionsFrom idx os).get? i =
      (os.get? i).map (fun o => (Char.ofNat (65 + idx + i), o)) := by
  induction os with
  | nil => intro idx i; simp [renderOptionsFrom]
  | cons o rest ih =>
    intro idx i
    cases i with
    | zero => simp [renderOptionsFrom]
    | succ n =>
      have h2 := ih (idx + 1) n
      rw [show 65 + (idx + 1) + n = 65 + idx + (n + 1) by omega] at h2
      simpa [renderOptionsFrom] using h2

/-- C9: in a presenting state whose payload reads as a question, the
rendered option rows keep exactly the provider order of the options, and
the letter label of the row at index i has character code 65 + i, so
index 0 gets A, index 1 gets B, and so on, independent of the option
text. -/
theorem C9_options_order_and_labels (st : SessionState) (q : Question) (i : Nat)
    (o : String)
    (hp : Presenting st)
    (hq : decodeQuestion st.question = some q)
    (hi : q.options.get? i = some o) :
    (renderOptions q.options).map Prod.snd = q.options ∧
    (renderOptions q.options).get? i = some (Char.ofNat (65 + i), o) := by
  refine ⟨renderOptionsFrom_map_snd 0 q.options, ?_⟩
  rw [renderOptions, renderOptionsFrom_get? q.options 0 i, hi]
  simp

/-- C9 witness: in the concrete presenting state, the second option b is
rendered at index 1 with letter code 66, and the projection of the rows
returns the options in provider order. -/
theorem C9_witness :
    (renderOptions w2Question.options).map Prod.snd = w2Question.options ∧
    (renderOptions w2Question.options).get? 1 = some (Char.ofNat (65 + 1), "b") :=
  C9_options_order_and_labels w2State w2Question 1 "b" ⟨rfl, rfl, rfl, rfl⟩ rfl rfl

/-- A step never drives a non-negative streak negative. -/
lemma sessionStep_streak_nonneg (mode : GameMode) (s : SessionState × Int)
    (a : SessionAct) (h : 0 ≤ s.1.streak) : 0 ≤ (sessionStep mode s a).1.streak := by
  cases a with
  | load resp =>
    have := (loadQuestion_spec mode s.1 resp).2.2.2
    simpa [sessionStep, this] using h
  | answer opt =>
    show 0 ≤ (handleAnswer s.1 s.2 opt).1.streak
    cases hg : strTruthy s.1.selectedOption with
    | true => simpa [handleAnswer, hg] using h
    | false =>
      simp only [handleAnswer, hg]
      split <;> simp <;> omega

/-- The score after a step is the old score or the old score plus the
streak bonus. -/
lemma sessionStep_score (mode : GameMode) (s : SessionState × Int) (a : SessionAct) :
    (sessionStep mode s a).2 = s.2 ∨
    (sessionStep mode s a).2 = s.2 + (10 + s.1.streak * 2) := by
  cases a with
  | load resp => exact Or.inl rfl
  | answer opt =>
    show (handleAnswer s.1 s.2 opt).2 = _ ∨ (handleAnswer s.1 s.2 opt).2 = _
    cases hg : strTruthy s.1.selectedOption with
    | true => exact Or.inl (by simp [handleAnswer, hg])
    | false =>
      by_cases hc : jsStrictEqStr opt (s.1.question.getField "correctAnswer") = true
      · exact Or.inr (by simp [handleAnswer, hg, hc, handleScoreUpdate])
      · exact Or.inl (by simp [handleAnswer, hg, hc])

/-- A step keeps a non-negative score non-negative when the streak is
non-negative. -/
lemma sessionStep_score_nonneg (mode : GameMode) (s : SessionState × Int)
    (a : SessionAct) (h1 : 0 ≤ s.1.streak) (h2 : 0 ≤ s.2) :
    0 ≤ (sessionStep mode s a).2 := by
  rcases sessionStep_score mode s a with hc | hc <;> rw [hc] <;> omega

/-- Along any run from a state with non-negative streak and score, both
stay non-negative. -/
lemma sessionRun_nonneg (mode : GameMode) (acts : List SessionAct) :
    ∀ (s : SessionState × Int), 0 ≤ s.1.streak → 0 ≤ s.2 →
      0 ≤ (sessionRun mode s acts).1.streak ∧ 0 ≤ (sessionRun mode s acts).2 := by
  induction acts with
  | nil => intro s h1 h2; exact ⟨h1, h2⟩
  | cons a rest ih =>
    intro s h1 h2
    exact ih (sessionStep mode s a) (sessionStep_streak_nonneg mode s a h1)
      (sessionStep_score_nonneg mode s a h1 h2)

/-- C10: the score starts at 0; every step with a non-negative streak
leaves the score unchanged or adds exactly 10 plus twice the streak,
an amount of at least 10, so the score never decreases; and along every
run from the mounted component the streak and the score stay
non-negative. -/
theorem C10_score_monotone_from_zero :
    initApp.score = 0 ∧
    (∀ (mode : GameMode) (s : SessionState × Int) (a : SessionAct),
      0 ≤ s.1.streak →
        s.2 ≤ (sessionStep mode s a).2 ∧
        ((sessionStep mode s a).2 = s.2 ∨
          ((sessionStep mode s a).2 = s.2 + (10 + s.1.streak * 2) ∧
            10 ≤ 10 + s.1.streak * 2))) ∧
    (∀ (mode : GameMode) (acts : List SessionAct),
      0 ≤ (sessionRun mode (initSession, 0) acts).1.streak ∧
      0 ≤ (sessionRun mode (initSession, 0) acts).2) := by
  refine ⟨rfl, ?_, ?_⟩
  · intro mode s a h
    rcases sessionStep_score mode s a with hc | hc
    · exact ⟨le_of_eq hc.symm, Or.inl hc⟩
    · refine ⟨by rw [hc]; omega, Or.inr ⟨hc, by omega⟩⟩
  · intro mode acts
    exact sessionRun_nonneg mode acts (initSession, 0) (by decide) (by decide)

/-- C10 witness: from the freshly mounted session with score 0, one answer
step keeps the score at 0 or raises it by the minimum bonus of 10, and in
either case does not lower it. -/
theorem C10_witness :
    (initSession, (0 : Int)).2 ≤
      (sessionStep GameMode.song (initSession, (0 : Int)) (SessionAct.answer "x")).2 ∧
    ((sessionStep GameMode.song (initSession, (0 : Int)) (SessionAct.answer "x")).2 =
        (initSession, (0 : Int)).2 ∨
      ((sessionStep GameMode.song (initSession, (0 : Int)) (SessionAct.answer "x")).2 =
          (initSession, (0 : Int)).2 + (10 + (initSession, (0 : Int)).1.streak * 2) ∧
        10 ≤ 10 + (initSession, (0 : Int)).1.streak * 2)) :=
  C10_score_monotone_from_zero.2.1 GameMode.song (initSession, (0 : Int))
    (SessionAct.answer "x") (by decide)

/-- C4 witness: a response with no text fails, and the well-formed payload
null is returned as is. -/
theorem C4_witness :
    (∃ e, fetchGameQuestion GameMode.song AIResponse.noText = Except.error e) ∧
    fetchGameQuestion GameMode.song (AIResponse.jsonText Json.null) =
      Except.ok Json.null :=
  ⟨(C4_fetch_failure_iff GameMode.song AIResponse.noText).1.mpr (Or.inl rfl),
   (C4_fetch_failure_iff GameMode.song AIResponse.noText).2 Json.null⟩
